import Mathlib

set_option maxHeartbeats 1000000

/-!
Shallow embedding of the invoice batch signing orchestrator from
`src/app/sign-viewer/sign-viewer.ts` and `src/app/service/auth-pdf.ts`.
Network interactions are modelled by explicit response oracles passed as
arguments; the trace of issued signing calls is returned alongside the
updated component state.  JavaScript string truthiness (`!x` is true for
undefined, null and the empty string) is modelled by `strTruthy` over
`Option String`.
-/

def API_BASE : String := "https://api.prosign-lis.com"

def AGENT_BASE : String := "http://localhost:53821"

/-- One invoice session as returned by the ACCEPT call. -/
structure InvoiceSession where
  documentIdentifier : String
  signingSessionId   : String
  invoiceId          : String
deriving Repr, DecidableEq

structure PdfPage where
  img        : String
  pageNumber : Nat
  totalPages : Nat
deriving Repr, DecidableEq

/-- Response of POST /api/sign/id/accept; the session list is optional to
model a response whose `signingSessions` field is absent. -/
structure AcceptResponse where
  status          : String
  signingSessions : Option (List InvoiceSession)
deriving Repr, DecidableEq

/-- Response of the PREPARE call.  Its `signingSessionId` field collides in
name with the ACCEPT-time token but is a distinct value. -/
structure PrepareSignResponse where
  signatureId      : Int
  sessionId        : String
  signingSessionId : String
  status           : String
  digest           : Option String
deriving Repr, DecidableEq

structure AgentSignResponse where
  signatureValue : Option String
  certificate    : Option String
  algorithm      : String
  success        : Bool
  message        : String
deriving Repr, DecidableEq

structure SscdCertificate where
  algorithm    : String
  certAlias    : String  -- named `alias` in the source; `alias` is reserved here
  issuer       : String
  serialNumber : String
  subject      : String
  ctype        : String
  validFrom    : String
  validUntil   : String
deriving Repr, DecidableEq

/-- Per-invoice view state held by the component (`InvoiceView` in the
source). -/
structure InvoiceView where
  session     : InvoiceSession
  pages       : List PdfPage
  loading     : Bool
  error       : Option String
  signed      : Bool
  prepareResp : Option PrepareSignResponse
  agentResp   : Option AgentSignResponse
deriving Repr, DecidableEq

/-- Shape of an HTTP failure object (Angular HttpErrorResponse):
`status`, nested `error.message` and top-level `message`. -/
structure HttpError where
  status       : Option Int
  errorMessage : Option String
  message      : Option String
deriving Repr, DecidableEq

/-- A thrown JavaScript value: either an Error instance (carrying only a
message) or an HTTP error response object. -/
inductive Thrown where
  | jsError (message : String)
  | httpErr (e : HttpError)
deriving Repr, DecidableEq

/-- Embeds `extractServerMessage`: `e.error?.message ?? e?.message ?? null`. -/
def extractServerMessage : Thrown → Option String
  | .jsError m => some m
  | .httpErr e =>
      match e.errorMessage with
      | some m => some m
      | none   => e.message

/-- JavaScript truthiness of an optional string field. -/
def strTruthy : Option String → Bool
  | none   => false
  | some s => s != ""

instance {ε α : Type} [DecidableEq ε] [DecidableEq α] : DecidableEq (Except ε α) := by
  intro a b
  cases a <;> cases b
  case error.error x y =>
    exact if h : x = y then .isTrue (by rw [h]) else .isFalse (by simp [h])
  case error.ok x y => exact .isFalse (by simp)
  case ok.error x y => exact .isFalse (by simp)
  case ok.ok x y =>
    exact if h : x = y then .isTrue (by rw [h]) else .isFalse (by simp [h])

/-- A network request issued by the signing pipeline, with its payload. -/
inductive NetCall where
  | prepareCall   (url frmAlias signingSessionId serialNumber : String)
  | agentSignCall (digest algorithm frmAlias : String)
  | completeCall  (url signingSessionId signatureValue certificate algorithm : String)
deriving Repr, DecidableEq

/-- Embeds `prepareSign` of `sign-viewer.ts` (the routed component).  The
oracle `net` is the HTTP outcome: an error, a null body, or a response.
The thrown digest-absent error is caught by the surrounding catch and
rethrown with its own message (`extractServerMessage` of an Error instance
returns its message). -/
def prepareSign (mainDocumentId : String) (session : InvoiceSession)
    (cert : SscdCertificate)
    (net : Except HttpError (Option PrepareSignResponse)) :
    NetCall × Except String PrepareSignResponse :=
  let url := API_BASE ++ "/api/sign/" ++ mainDocumentId ++ "/prepare"
  let call := NetCall.prepareCall url cert.certAlias session.signingSessionId cert.serialNumber
  match net with
  | .error e =>
      (call, .error ((extractServerMessage (.httpErr e)).getD
        ("Échec de la préparation pour la facture " ++ session.invoiceId ++ ".")))
  | .ok none =>
      (call, .error ("Digest absent de la réponse de préparation."))
  | .ok (some r) =>
      if strTruthy r.digest then (call, .ok r)
      else (call, .error ("Digest absent de la réponse de préparation."))

/-- Embeds `signViaAgent` of `sign-viewer.ts`.  An invalid-response Error
thrown inside the try block is an Error instance and is rethrown as is;
HTTP failures are classified by status 0 (agent unreachable). -/
def signViaAgent (digest : String) (cert : SscdCertificate)
    (net : Except HttpError (Option AgentSignResponse)) :
    NetCall × Except String AgentSignResponse :=
  let call := NetCall.agentSignCall digest cert.algorithm cert.certAlias
  match net with
  | .error e =>
      if e.status == some 0 then
        (call, .error ("L\u0027agent PROSign n\u0027est plus accessible."))
      else
        (call, .error ("Échec de la signature via l\u0027agent local."))
  | .ok none =>
      (call, .error ("Réponse de l\u0027agent invalide."))
  | .ok (some r) =>
      if strTruthy r.signatureValue && strTruthy r.certificate then (call, .ok r)
      else (call, .error ("Réponse de l\u0027agent invalide."))

/-- Embeds `completeSign` of `sign-viewer.ts` (the routed component): the
payload token is `session.signingSessionId`, the ACCEPT-time token. -/
def completeSign (mainDocumentId : String) (session : InvoiceSession)
    (agentResp : AgentSignResponse) (cert : SscdCertificate)
    (net : Except HttpError Unit) :
    NetCall × Except String Unit :=
  let url := API_BASE ++ "/api/sign/" ++ mainDocumentId ++ "/complete"
  let call := NetCall.completeCall url session.signingSessionId
      (agentResp.signatureValue.getD ("")) (agentResp.certificate.getD ("")) cert.algorithm
  match net with
  | .ok _ => (call, .ok ())
  | .error e =>
      (call, .error ((extractServerMessage (.httpErr e)).getD
        ("Échec de la finalisation pour la facture " ++ session.invoiceId ++ ".")))

/-- Embeds `completeSign` of the variant source `src/unnamed/part_002`,
which sources the token from the PREPARE response instead of the
ACCEPT-time session (the spec flags this variant as a likely defect). -/
def completeSign_variant (session : InvoiceSession)
    (prepareResp : PrepareSignResponse)
    (agentResp : AgentSignResponse) (cert : SscdCertificate)
    (net : Except HttpError Unit) :
    NetCall × Except String Unit :=
  let url := API_BASE ++ "/api/sign/" ++ session.documentIdentifier ++ "/complete"
  let call := NetCall.completeCall url prepareResp.signingSessionId
      (agentResp.signatureValue.getD ("")) (agentResp.certificate.getD ("")) cert.algorithm
  match net with
  | .ok _ => (call, .ok ())
  | .error e =>
      (call, .error ((extractServerMessage (.httpErr e)).getD
        ("Échec de la finalisation pour la facture " ++ session.invoiceId ++ ".")))

/-- Embeds `verifyAgentAndCertificate` of `auth-pdf.ts`: false on any HTTP
failure, a null body, or an empty certificate list. -/
def verifyAgentAndCertificate
    (net : Except HttpError (Option (List SscdCertificate))) : Bool :=
  match net with
  | .error _ => false
  | .ok none => false
  | .ok (some l) => !(l.length == 0)

/-- The HTTP outcomes of the three per-invoice calls for one invoice. -/
structure InvoiceNet where
  prepareNet  : Except HttpError (Option PrepareSignResponse)
  agentNet    : Except HttpError (Option AgentSignResponse)
  completeNet : Except HttpError Unit
deriving Repr

/-- The label pushed onto the failure list for one invoice. -/
def invoiceLabel (s : InvoiceSession) : String :=
  s.documentIdentifier ++ " (N°" ++ s.invoiceId ++ ")"

structure StepResult where
  inv         : InvoiceView
  failedLabel : Option String
  calls       : List NetCall
deriving Repr, DecidableEq

/-- Embeds one iteration of the `signWithCert` loop body: prepare, agent
sign, complete, with the catch block recording the failure label and the
error message on the invoice. -/
def signOneInvoice (mainDocumentId : String) (cert : SscdCertificate)
    (inv : InvoiceView) (net : InvoiceNet) : StepResult :=
  let p := prepareSign mainDocumentId inv.session cert net.prepareNet
  match p.2 with
  | .error m =>
      { inv := { inv with error := some m },
        failedLabel := some (invoiceLabel inv.session), calls := [p.1] }
  | .ok prepareResp =>
      let inv1 := { inv with prepareResp := some prepareResp }
      let a := signViaAgent (prepareResp.digest.getD ("")) cert net.agentNet
      match a.2 with
      | .error m =>
          { inv := { inv1 with error := some m },
            failedLabel := some (invoiceLabel inv.session), calls := [p.1, a.1] }
      | .ok agentResp =>
          let inv2 := { inv1 with agentResp := some agentResp }
          let c := completeSign mainDocumentId inv2.session agentResp cert net.completeNet
          match c.2 with
          | .error m =>
              { inv := { inv2 with error := some m },
                failedLabel := some (invoiceLabel inv.session),
                calls := [p.1, a.1, c.1] }
          | .ok _ =>
              { inv := { inv2 with signed := true }, failedLabel := none,
                calls := [p.1, a.1, c.1] }

/-- Sequential loop over the invoices starting at index `i`: returns the
updated invoice list, the failure labels in order, and the full ordered
trace of issued calls. -/
def runFrom (d : String) (cert : SscdCertificate) (nets : Nat → InvoiceNet) :
    Nat → List InvoiceView → List InvoiceView × List String × List NetCall
  | _, [] => ([], [], [])
  | i, inv :: rest =>
    let r := signOneInvoice d cert inv (nets i)
    let t := runFrom d cert nets (i + 1) rest
    (r.inv :: t.1,
     (match r.failedLabel with
      | some l => l :: t.2.1
      | none   => t.2.1),
     r.calls ++ t.2.2)

structure SigningProgress where
  current   : Nat
  total     : Nat
  docId     : String
  invoiceId : String
deriving Repr, DecidableEq

/-- The component state fields touched by the signing flow. -/
structure SignState where
  mainDocumentId  : String
  isLoading       : Bool
  termsAccepted   : Bool
  signedSuccess   : Bool
  isSigning       : Bool
  invoices        : List InvoiceView
  currentPage     : Nat
  signingProgress : Option SigningProgress
deriving Repr, DecidableEq

/-- The batch outcome shown after the loop: signed count and failure
labels. -/
structure BatchOutcome where
  signedCount         : Nat
  failedInvoiceLabels : List String
deriving Repr, DecidableEq

structure SignRun where
  state   : SignState
  calls   : List NetCall
  outcome : Option BatchOutcome
deriving Repr, DecidableEq

/-- Embeds `signWithCert`: terms guard, re-entrancy/empty-list guard,
agent/certificate readiness check, sequential per-invoice loop, outcome
classification, and the finally block clearing `isSigning` and
`signingProgress` on every exit path. -/
def signWithCert (st : SignState) (cert : SscdCertificate)
    (verifyNet : Except HttpError (Option (List SscdCertificate)))
    (nets : Nat → InvoiceNet) : SignRun :=
  if !st.termsAccepted then { state := st, calls := [], outcome := none }
  else if st.isSigning || st.invoices.length == 0 then
    { state := st, calls := [], outcome := none }
  else if !(verifyAgentAndCertificate verifyNet) then
    { state := { st with isSigning := false, signingProgress := none },
      calls := [], outcome := none }
  else
    let total := st.invoices.length
    let r := runFrom st.mainDocumentId cert nets 0 st.invoices
    { state := { st with
        invoices        := r.1,
        currentPage     := total - 1,
        signingProgress := none,
        signedSuccess   := if r.2.1.isEmpty then true else st.signedSuccess,
        isSigning       := false },
      calls := r.2.2,
      outcome := some { signedCount := total - r.2.1.length,
                        failedInvoiceLabels := r.2.1 } }

/-- A fresh invoice record built from an ACCEPT session (the map in
`acceptAndLoadPdfs`). -/
def mkInvoiceView (s : InvoiceSession) : InvoiceView :=
  { session := s, pages := [], loading := true, error := none, signed := false,
    prepareResp := none, agentResp := none }

/-- Embeds `loadInvoicePdf`: success stores the rendered pages, failure
stores the per-invoice render error; `loading` clears either way. -/
def loadInvoicePdf (inv : InvoiceView) (render : Option (List PdfPage)) :
    InvoiceView :=
  match render with
  | some pages => { inv with pages := pages, loading := false }
  | none =>
      { inv with
          loading := false,
          error := some ("Impossible de charger la facture " ++ inv.session.invoiceId ++ ".") }

/-- The parallel PDF loads: each index gets its own render outcome. -/
def loadAllPdfs (renders : Nat → Option (List PdfPage)) :
    Nat → List InvoiceView → List InvoiceView
  | _, [] => []
  | i, inv :: rest => loadInvoicePdf inv (renders i) :: loadAllPdfs renders (i + 1) rest

/-- Embeds `acceptAndLoadPdfs`: the ACCEPT call, the empty-session guard,
invoice construction preserving ACCEPT order, and the error dialogs
(returned as an optional text/title pair). -/
def acceptAndLoadPdfs (st : SignState)
    (acceptNet : Except HttpError (Option AcceptResponse))
    (renders : Nat → Option (List PdfPage)) :
    SignState × Option (String × String) :=
  match acceptNet with
  | .error e =>
      let dialog :=
        if e.status == some 400 || e.status == some 401 then
          ("Cette session a expiré. Veuillez relancer le processus de signature.",
           "Session expirée")
        else if e.status == some 404 then
          ("Le lien de signature est invalide ou n\u0027existe plus.", "Lien invalide")
        else
          ((extractServerMessage (.httpErr e)).getD
            ("Impossible de charger les factures."), "Erreur")
      ({ st with isLoading := false }, some dialog)
  | .ok resp =>
      let sessions := (resp.bind (fun r => r.signingSessions)).getD []
      if sessions.isEmpty then
        ({ st with isLoading := false },
         some ("Aucune facture à signer n\u0027a été trouvée.", "Aucune facture"))
      else
        ({ st with
            invoices := loadAllPdfs renders 0 (sessions.map mkInvoiceView),
            currentPage := 0, isLoading := false }, none)

/-- The component state right after construction and ngOnInit's id read. -/
def initialState (docId : String) : SignState :=
  { mainDocumentId := docId, isLoading := true, termsAccepted := false,
    signedSuccess := false, isSigning := false, invoices := [],
    currentPage := 0, signingProgress := none }

-- ── Claim-side characterisations of the oracle outcomes ───────────────────

/-- The PREPARE step validates: HTTP success, non-null body, truthy digest. -/
def prepareStepOk (net : InvoiceNet) : Bool :=
  match net.prepareNet with
  | .ok (some r) => strTruthy r.digest
  | _ => false

/-- The AGENT-SIGN step validates: HTTP success, non-null body, truthy
signatureValue and certificate. -/
def agentStepOk (net : InvoiceNet) : Bool :=
  match net.agentNet with
  | .ok (some r) => strTruthy r.signatureValue && strTruthy r.certificate
  | _ => false

/-- The COMPLETE step succeeds: HTTP success. -/
def completeStepOk (net : InvoiceNet) : Bool :=
  match net.completeNet with
  | .ok _ => true
  | .error _ => false

def invoiceNetOk (net : InvoiceNet) : Bool :=
  prepareStepOk net && agentStepOk net && completeStepOk net

def netDigest (net : InvoiceNet) : String :=
  match net.prepareNet with
  | .ok (some r) => r.digest.getD ("")
  | _ => ""

def netSigValue (net : InvoiceNet) : String :=
  match net.agentNet with
  | .ok (some r) => r.signatureValue.getD ("")
  | _ => ""

def netCertificate (net : InvoiceNet) : String :=
  match net.agentNet with
  | .ok (some r) => r.certificate.getD ("")
  | _ => ""

/-- The expected per-invoice call block: PREPARE always; AGENT-SIGN only
after PREPARE validated, carrying PREPARE's digest; COMPLETE only after
AGENT-SIGN validated, carrying the ACCEPT-time token and the agent's
outputs. -/
def blockSpec (d : String) (cert : SscdCertificate) (s : InvoiceSession)
    (net : InvoiceNet) : List NetCall :=
  NetCall.prepareCall (API_BASE ++ "/api/sign/" ++ d ++ "/prepare")
      cert.certAlias s.signingSessionId cert.serialNumber ::
  (if prepareStepOk net then
    NetCall.agentSignCall (netDigest net) cert.algorithm cert.certAlias ::
    (if agentStepOk net then
      [NetCall.completeCall (API_BASE ++ "/api/sign/" ++ d ++ "/complete")
        s.signingSessionId (netSigValue net) (netCertificate net) cert.algorithm]
     else [])
   else [])

/-- The failure labels the loop is expected to accumulate, in order. -/
def expectedFailsFrom (nets : Nat → InvoiceNet) : Nat → List InvoiceView → List String
  | _, [] => []
  | i, inv :: rest =>
      if invoiceNetOk (nets i) then expectedFailsFrom nets (i + 1) rest
      else invoiceLabel inv.session :: expectedFailsFrom nets (i + 1) rest

/-- The number of invoices whose three calls all succeed. -/
def countOkFrom (nets : Nat → InvoiceNet) : Nat → List InvoiceView → Nat
  | _, [] => 0
  | i, _ :: rest =>
      (if invoiceNetOk (nets i) then 1 else 0) + countOkFrom nets (i + 1) rest

def isCompleteCall : NetCall → Bool
  | .completeCall _ _ _ _ _ => true
  | _ => false

def tokenOfCall : NetCall → String
  | .prepareCall _ _ tok _ => tok
  | .agentSignCall _ _ _ => ""
  | .completeCall _ tok _ _ _ => tok

/-- Whether the character list `l` starts with `p`. -/
def charsStartWith : List Char → List Char → Bool
  | _, [] => true
  | [], _ :: _ => false
  | a :: as, b :: bs => a == b && charsStartWith as bs

/-- Whether `p` occurs contiguously inside `l`. -/
def charsContain : List Char → List Char → Bool
  | [], p => p.isEmpty
  | a :: as, p => charsStartWith (a :: as) p || charsContain as p

/-- Substring test: true iff `pat` occurs in `s`. -/
def containsStr (s pat : String) : Bool :=
  charsContain s.data pat.data

-- ── Default elements for getD-based statements ─────────────────────────────

def dSess : InvoiceSession := { documentIdentifier := "", signingSessionId := "", invoiceId := "" }

def dInv : InvoiceView := mkInvoiceView dSess

-- ── Sample data for witnesses and counterexamples ──────────────────────────

def sampleCert : SscdCertificate :=
  { algorithm := "SHA1WithRSA", certAlias := "Alice", issuer := "CN=Issuer",
    serialNumber := "SN1", subject := "Subj", ctype := "RSA",
    validFrom := "2020", validUntil := "2030" }

def sess1 : InvoiceSession :=
  { documentIdentifier := "DOC-1", signingSessionId := "TOK-1", invoiceId := "INV1" }

def sess2 : InvoiceSession :=
  { documentIdentifier := "DOC-2", signingSessionId := "TOK-2", invoiceId := "INV2" }

def okPrepResp : PrepareSignResponse :=
  { signatureId := 1, sessionId := "S", signingSessionId := "PREP-TOKEN",
    status := "ok", digest := some ("DIG") }

def okAgentResp : AgentSignResponse :=
  { signatureValue := some ("SIGVAL"), certificate := some ("CERTB"),
    algorithm := "SHA1WithRSA", success := true, message := "" }

def okNet : InvoiceNet :=
  { prepareNet := .ok (some okPrepResp), agentNet := .ok (some okAgentResp),
    completeNet := .ok () }

def badPrepNet : InvoiceNet :=
  { okNet with prepareNet := .ok (some { okPrepResp with digest := none }) }

def goodVerify : Except HttpError (Option (List SscdCertificate)) :=
  .ok (some [sampleCert])

-- temporary smoke tests

-- appended experimentally

def sess3 : InvoiceSession :=
  { documentIdentifier := "DOC-3", signingSessionId := "TOK-3", invoiceId := "INV3" }

def c2State : SignState :=
  { initialState ("DOC") with
      invoices := [mkInvoiceView sess1, mkInvoiceView sess2, mkInvoiceView sess3],
      termsAccepted := true }

def c2Nets : Nat → InvoiceNet := fun i => if i == 1 then badPrepNet else okNet

def badVerify : Except HttpError (Option (List SscdCertificate)) :=
  .error { status := some 0, errorMessage := none, message := none }

def c8State : SignState := { c2State with isSigning := true }

def c3Accept : AcceptResponse := { status := "OK", signingSessions := some [sess1, sess2] }

def c3State : SignState :=
  { (acceptAndLoadPdfs (initialState ("DOC")) (Except.ok (some c3Accept)) (fun _ => some [])).1 with
      termsAccepted := true }

def c10Invoice : InvoiceView :=
  { mkInvoiceView sess1 with
      loading := false,
      error := some ("Impossible de charger la facture INV1.") }

def c10State : SignState :=
  { initialState ("DOC") with invoices := [c10Invoice], termsAccepted := true }

def c7Resp : AcceptResponse := { status := "OK", signingSessions := some [] }

def c5Accept : AcceptResponse := { status := "OK", signingSessions := some [sess1] }

def c5State : SignState :=
  { (acceptAndLoadPdfs (initialState ("DOC")) (Except.ok (some c5Accept)) (fun _ => none)).1 with
      termsAccepted := true }

def c5CleanState : SignState :=
  { initialState ("DOC") with invoices := [mkInvoiceView sess1], termsAccepted := true }

def digestOf : Option PrepareSignResponse → Option String
  | none => none
  | some r => r.digest

def c6Sess : InvoiceSession :=
  { documentIdentifier := "DOC-6", signingSessionId := "TOK-6", invoiceId := "INV42" }

def c6NoDigest : Except HttpError (Option PrepareSignResponse) :=
  .ok (some { signatureId := 1, sessionId := "S", signingSessionId := "PREP-TOKEN",
              status := "ok", digest := none })

def c6ServerErr : HttpError :=
  { status := some 500, errorMessage := some ("SRV"), message := none }

theorem signOneInvoice_calls (d : String) (cert : SscdCertificate)
    (inv : InvoiceView) (net : InvoiceNet) :
    (signOneInvoice d cert inv net).calls = blockSpec d cert inv.session net := by
  rcases net with ⟨pn, an, cn⟩
  rcases pn with e | (_ | r) <;> rcases an with e2 | (_ | r2) <;> rcases cn with e3 | u <;>
    simp only [signOneInvoice, prepareSign, signViaAgent, completeSign, blockSpec,
      prepareStepOk, agentStepOk, netDigest, netSigValue, netCertificate] <;>
    split_ifs <;> simp_all

theorem signOneInvoice_label (d : String) (cert : SscdCertificate)
    (inv : InvoiceView) (net : InvoiceNet) :
    (signOneInvoice d cert inv net).failedLabel =
      if invoiceNetOk net then none else some (invoiceLabel inv.session) := by
  rcases net with ⟨pn, an, cn⟩
  rcases pn with e | (_ | r) <;> rcases an with e2 | (_ | r2) <;> rcases cn with e3 | u <;>
    simp only [signOneInvoice, prepareSign, signViaAgent, completeSign, invoiceNetOk,
      prepareStepOk, agentStepOk, completeStepOk, Bool.and_true, Bool.and_false,
      Bool.true_and, Bool.false_and] <;>
    split_ifs <;> simp_all

theorem signOneInvoice_session (d : String) (cert : SscdCertificate)
    (inv : InvoiceView) (net : InvoiceNet) :
    (signOneInvoice d cert inv net).inv.session = inv.session := by
  rcases net with ⟨pn, an, cn⟩
  rcases pn with e | (_ | r) <;> rcases an with e2 | (_ | r2) <;> rcases cn with e3 | u <;>
    simp only [signOneInvoice, prepareSign, signViaAgent, completeSign] <;>
    first
      | (split_ifs <;> simp_all)
      | simp_all

theorem signOneInvoice_inv_ok (d : String) (cert : SscdCertificate)
    (inv : InvoiceView) (net : InvoiceNet) (h : invoiceNetOk net = true) :
    (signOneInvoice d cert inv net).inv.signed = true ∧
    (signOneInvoice d cert inv net).inv.error = inv.error := by
  rcases net with ⟨pn, an, cn⟩
  simp only [invoiceNetOk, prepareStepOk, agentStepOk, completeStepOk] at h
  rcases pn with e | (_ | r) <;> rcases an with e2 | (_ | r2) <;> rcases cn with e3 | u <;>
    simp_all <;>
    simp only [signOneInvoice, prepareSign, signViaAgent, completeSign] <;>
    first
      | (split_ifs <;> simp_all)
      | simp_all

theorem signOneInvoice_inv_fail (d : String) (cert : SscdCertificate)
    (inv : InvoiceView) (net : InvoiceNet) (h : invoiceNetOk net = false) :
    (signOneInvoice d cert inv net).inv.signed = inv.signed ∧
    ∃ m, (signOneInvoice d cert inv net).inv.error = some m := by
  rcases net with ⟨pn, an, cn⟩
  simp only [invoiceNetOk, prepareStepOk, agentStepOk, completeStepOk] at h
  rcases pn with e | (_ | r) <;> rcases an with e2 | (_ | r2) <;> rcases cn with e3 | u <;>
    simp_all <;>
    simp only [signOneInvoice, prepareSign, signViaAgent, completeSign] <;>
    first
      | (split_ifs <;> simp_all)
      | simp_all

theorem runFrom_length (d : String) (cert : SscdCertificate) (nets : Nat → InvoiceNet) :
    ∀ (i : Nat) (invs : List InvoiceView),
      (runFrom d cert nets i invs).1.length = invs.length := by
  intro i invs
  induction invs generalizing i with
  | nil => simp [runFrom]
  | cons inv rest ih => simp [runFrom, ih]

theorem runFrom_getD (d : String) (cert : SscdCertificate) (nets : Nat → InvoiceNet) :
    ∀ (invs : List InvoiceView) (i j : Nat), j < invs.length →
      (runFrom d cert nets i invs).1.getD j dInv =
        (signOneInvoice d cert (invs.getD j dInv) (nets (i + j))).inv := by
  intro invs
  induction invs with
  | nil => intro i j h; simp at h
  | cons inv rest ih =>
      intro i j h
      cases j with
      | zero => simp [runFrom]
      | succ j =>
          have hj : j < rest.length := by simpa using h
          have hadd : i + (j + 1) = (i + 1) + j := by omega
          simp only [runFrom, List.getD_cons_succ, hadd]
          exact ih (i + 1) j hj

theorem runFrom_fails (d : String) (cert : SscdCertificate) (nets : Nat → InvoiceNet) :
    ∀ (invs : List InvoiceView) (i : Nat),
      (runFrom d cert nets i invs).2.1 = expectedFailsFrom nets i invs := by
  intro invs
  induction invs with
  | nil => intro i; simp [runFrom, expectedFailsFrom]
  | cons inv rest ih =>
      intro i
      by_cases h : invoiceNetOk (nets i) = true
      · simp [runFrom, expectedFailsFrom, signOneInvoice_label, h, ih (i + 1)]
      · simp only [Bool.not_eq_true] at h
        simp [runFrom, expectedFailsFrom, signOneInvoice_label, h, ih (i + 1)]

theorem runFrom_calls (d : String) (cert : SscdCertificate) (nets : Nat → InvoiceNet) :
    ∀ (invs : List InvoiceView) (i : Nat),
      (runFrom d cert nets i invs).2.2 =
        ((List.range invs.length).map
          (fun j => blockSpec d cert ((invs.getD j dInv).session) (nets (i + j)))).join := by
  intro invs
  induction invs with
  | nil => intro i; simp [runFrom]
  | cons inv rest ih =>
      intro i
      rw [List.length_cons, List.range_succ_eq_map]
      simp only [List.map_cons, List.map_map, List.join_cons]
      rw [runFrom]
      simp only [signOneInvoice_calls, List.getD_cons_zero, Nat.add_zero]
      congr 1
      rw [ih (i + 1)]
      congr 1
      apply List.map_congr_left
      intro j hj
      have hadd : i + (j + 1) = (i + 1) + j := by omega
      simp [Function.comp, List.getD_cons_succ, hadd]

theorem runFrom_mem (d : String) (cert : SscdCertificate) (nets : Nat → InvoiceNet) :
    ∀ (invs : List InvoiceView) (i : Nat) (x : InvoiceView),
      x ∈ (runFrom d cert nets i invs).1 →
      ∃ j inv, inv ∈ invs ∧ x = (signOneInvoice d cert inv (nets j)).inv := by
  intro invs
  induction invs with
  | nil => intro i x hx; simp [runFrom] at hx
  | cons inv rest ih =>
      intro i x hx
      rw [runFrom] at hx
      rcases List.mem_cons.mp hx with h | h
      · exact ⟨i, inv, by simp, h⟩
      · rcases ih (i + 1) x h with ⟨j, inv2, hm, he⟩
        exact ⟨j, inv2, by simp [hm], he⟩

theorem expectedFails_countOk (nets : Nat → InvoiceNet) :
    ∀ (invs : List InvoiceView) (i : Nat),
      (expectedFailsFrom nets i invs).length + countOkFrom nets i invs = invs.length := by
  intro invs
  induction invs with
  | nil => intro i; simp [expectedFailsFrom, countOkFrom]
  | cons inv rest ih =>
      intro i
      have hrec := ih (i + 1)
      by_cases h : invoiceNetOk (nets i) = true <;>
        simp [expectedFailsFrom, countOkFrom, h] <;> omega

theorem signWithCert_guard_noop (st : SignState) (cert : SscdCertificate)
    (vnet : Except HttpError (Option (List SscdCertificate))) (nets : Nat → InvoiceNet)
    (h : st.isSigning = true ∨ st.invoices = []) :
    signWithCert st cert vnet nets = { state := st, calls := [], outcome := none } := by
  by_cases ht : st.termsAccepted
  · rcases h with h | h <;> simp [signWithCert, ht, h]
  · simp only [Bool.not_eq_true] at ht
    simp [signWithCert, ht]

theorem signWithCert_run (st : SignState) (cert : SscdCertificate)
    (vnet : Except HttpError (Option (List SscdCertificate))) (nets : Nat → InvoiceNet)
    (hT : st.termsAccepted = true) (hS : st.isSigning = false)
    (hNE : st.invoices ≠ []) (hV : verifyAgentAndCertificate vnet = true) :
    signWithCert st cert vnet nets =
      { state := { st with
          invoices        := (runFrom st.mainDocumentId cert nets 0 st.invoices).1,
          currentPage     := st.invoices.length - 1,
          signingProgress := none,
          signedSuccess   :=
            if (runFrom st.mainDocumentId cert nets 0 st.invoices).2.1.isEmpty then true
            else st.signedSuccess,
          isSigning       := false },
        calls := (runFrom st.mainDocumentId cert nets 0 st.invoices).2.2,
        outcome := some
          { signedCount := st.invoices.length -
              (runFrom st.mainDocumentId cert nets 0 st.invoices).2.1.length,
            failedInvoiceLabels :=
              (runFrom st.mainDocumentId cert nets 0 st.invoices).2.1 } } := by
  have hlen : (st.invoices.length == 0) = false := by
    simp [List.length_eq_zero, hNE]
  simp [signWithCert, hT, hS, hlen, hV]

theorem signWithCert_gated (st : SignState) (cert : SscdCertificate)
    (vnet : Except HttpError (Option (List SscdCertificate))) (nets : Nat → InvoiceNet)
    (hT : st.termsAccepted = true) (hS : st.isSigning = false)
    (hNE : st.invoices ≠ []) (hV : verifyAgentAndCertificate vnet = false) :
    signWithCert st cert vnet nets =
      { state := { st with isSigning := false, signingProgress := none },
        calls := [], outcome := none } := by
  have hlen : (st.invoices.length == 0) = false := by
    simp [List.length_eq_zero, hNE]
  simp [signWithCert, hT, hS, hlen, hV]

theorem loadInvoicePdf_session (inv : InvoiceView) (render : Option (List PdfPage)) :
    (loadInvoicePdf inv render).session = inv.session := by
  cases render <;> simp [loadInvoicePdf]

theorem loadAllPdfs_length (renders : Nat → Option (List PdfPage)) :
    ∀ (invs : List InvoiceView) (i : Nat),
      (loadAllPdfs renders i invs).length = invs.length := by
  intro invs
  induction invs with
  | nil => intro i; simp [loadAllPdfs]
  | cons inv rest ih => intro i; simp [loadAllPdfs, ih (i + 1)]

theorem loadAllPdfs_getD_session (renders : Nat → Option (List PdfPage)) :
    ∀ (invs : List InvoiceView) (i j : Nat), j < invs.length →
      ((loadAllPdfs renders i invs).getD j dInv).session = (invs.getD j dInv).session := by
  intro invs
  induction invs with
  | nil => intro i j h; simp at h
  | cons inv rest ih =>
      intro i j h
      cases j with
      | zero => simp [loadAllPdfs, loadInvoicePdf_session]
      | succ j =>
          have hj : j < rest.length := by simpa using h
          simp only [loadAllPdfs, List.getD_cons_succ]
          exact ih (i + 1) j hj

theorem map_mkInvoiceView_getD (sessions : List InvoiceSession) (j : Nat) :
    (sessions.map mkInvoiceView).getD j dInv = mkInvoiceView (sessions.getD j dSess) := by
  induction sessions generalizing j with
  | nil => cases j <;> simp [dInv]
  | cons s rest ih =>
      cases j with
      | zero => simp
      | succ n => simpa using ih n

/-- C1: for every invoice in a signing run, the signingSessionId sent in the
COMPLETE request body equals the signingSessionId captured for that invoice
from the ACCEPT response (held in `inv.session`), whatever the PREPARE
response (part of `net`) contains — in particular never the
`signingSessionId` field of the PREPARE response. -/
theorem C1_complete_uses_accept_token (d : String) (cert : SscdCertificate)
    (inv : InvoiceView) (net : InvoiceNet) (c : NetCall)
    (hc : c ∈ (signOneInvoice d cert inv net).calls)
    (hcomp : isCompleteCall c = true) :
    tokenOfCall c = inv.session.signingSessionId := by
  rw [signOneInvoice_calls] at hc
  unfold blockSpec at hc
  rcases List.mem_cons.mp hc with h | h
  · subst h; simp [isCompleteCall] at hcomp
  · by_cases hp : prepareStepOk net
    · rw [if_pos hp] at h
      rcases List.mem_cons.mp h with h2 | h2
      · subst h2; simp [isCompleteCall] at hcomp
      · by_cases ha : agentStepOk net
        · rw [if_pos ha] at h2
          rcases List.mem_cons.mp h2 with h3 | h3
          · subst h3; simp [tokenOfCall]
          · simp at h3
        · rw [if_neg ha] at h2; simp at h2
    · rw [if_neg hp] at h; simp at h

/-- Witness for C1 at a concrete successful run. -/
theorem C1_witness :
    (NetCall.completeCall ("https://api.prosign-lis.com/api/sign/DOC/complete")
        "TOK-1" "SIGVAL" "CERTB" "SHA1WithRSA"
      ∈ (signOneInvoice ("DOC") sampleCert (mkInvoiceView sess1) okNet).calls) ∧
    tokenOfCall (NetCall.completeCall ("https://api.prosign-lis.com/api/sign/DOC/complete")
        "TOK-1" "SIGVAL" "CERTB" "SHA1WithRSA")
      = (mkInvoiceView sess1).session.signingSessionId :=
  ⟨by decide,
   C1_complete_uses_accept_token ("DOC") sampleCert (mkInvoiceView sess1) okNet _
     (by decide) (by decide)⟩

/-- C2: per-invoice failure isolation — the loop processes every invoice,
an invoice whose three calls all succeed ends marked signed, and the final
outcome reports signedCount equal to the number of successes together with
the labels of the failed invoices, in order. -/
theorem C2_failure_isolation (st : SignState) (cert : SscdCertificate)
    (vnet : Except HttpError (Option (List SscdCertificate))) (nets : Nat → InvoiceNet)
    (hT : st.termsAccepted = true) (hS : st.isSigning = false)
    (hNE : st.invoices ≠ []) (hV : verifyAgentAndCertificate vnet = true) :
    (signWithCert st cert vnet nets).state.invoices.length = st.invoices.length ∧
    (∀ j, j < st.invoices.length → invoiceNetOk (nets j) = true →
      ((signWithCert st cert vnet nets).state.invoices.getD j dInv).signed = true) ∧
    (signWithCert st cert vnet nets).outcome =
      some { signedCount := countOkFrom nets 0 st.invoices,
             failedInvoiceLabels := expectedFailsFrom nets 0 st.invoices } := by
  rw [signWithCert_run st cert vnet nets hT hS hNE hV]
  refine ⟨by simp [runFrom_length], ?_, ?_⟩
  · intro j hj hok
    have hg := runFrom_getD st.mainDocumentId cert nets st.invoices 0 j hj
    simp only [Nat.zero_add] at hg
    simp only [hg]
    exact (signOneInvoice_inv_ok st.mainDocumentId cert _ _ hok).1
  · have hfc := runFrom_fails st.mainDocumentId cert nets st.invoices 0
    have hcnt := expectedFails_countOk nets st.invoices 0
    simp only [hfc, Option.some.injEq, BatchOutcome.mk.injEq]
    exact ⟨by omega, trivial⟩

/-- Witness for C2: three invoices, the second fails at PREPARE. -/
theorem C2_witness :
    (signWithCert c2State sampleCert goodVerify c2Nets).state.invoices.length = 3 ∧
    ((signWithCert c2State sampleCert goodVerify c2Nets).state.invoices.getD 0 dInv).signed = true ∧
    (signWithCert c2State sampleCert goodVerify c2Nets).outcome =
      some { signedCount := 2, failedInvoiceLabels := ["DOC-2 (N°INV2)"] } := by
  have h := C2_failure_isolation c2State sampleCert goodVerify c2Nets rfl rfl
    (by decide) (by decide)
  refine ⟨h.1.trans (by decide), h.2.1 0 (by decide) (by decide), ?_⟩
  rw [h.2.2]; decide

/-- C4: if the agent/certificate readiness check evaluates to false, the
sign operation issues no PREPARE, AGENT-SIGN or COMPLETE call and leaves
every invoice (its signed flag and error field included) unchanged. -/
theorem C4_precondition_gating (st : SignState) (cert : SscdCertificate)
    (vnet : Except HttpError (Option (List SscdCertificate))) (nets : Nat → InvoiceNet)
    (hV : verifyAgentAndCertificate vnet = false) :
    (signWithCert st cert vnet nets).calls = [] ∧
    (signWithCert st cert vnet nets).state.invoices = st.invoices := by
  by_cases ht : st.termsAccepted
  · by_cases hg : (st.isSigning || st.invoices.length == 0) = true
    · simp [signWithCert, ht, hg]
    · simp only [Bool.not_eq_true] at hg
      simp [signWithCert, ht, hg, hV]
  · simp only [Bool.not_eq_true] at ht
    simp [signWithCert, ht]

/-- Witness for C4: the agent is unreachable (status 0), state untouched. -/
theorem C4_witness :
    verifyAgentAndCertificate badVerify = false ∧
    (signWithCert c2State sampleCert badVerify c2Nets).calls = [] ∧
    (signWithCert c2State sampleCert badVerify c2Nets).state.invoices = c2State.invoices :=
  ⟨by decide,
   (C4_precondition_gating c2State sampleCert badVerify c2Nets (by decide)).1,
   (C4_precondition_gating c2State sampleCert badVerify c2Nets (by decide)).2⟩

/-- C8: invoking the sign operation while a run is already in progress, or
with an empty invoice list, is a no-op: the state (run-in-progress flag and
every invoice included) is returned unchanged and no call is issued. -/
theorem C8_reentrancy_noop (st : SignState) (cert : SscdCertificate)
    (vnet : Except HttpError (Option (List SscdCertificate))) (nets : Nat → InvoiceNet)
    (h : st.isSigning = true ∨ st.invoices = []) :
    signWithCert st cert vnet nets = { state := st, calls := [], outcome := none } :=
  signWithCert_guard_noop st cert vnet nets h

/-- Witness for C8: a run already in progress. -/
theorem C8_witness :
    signWithCert c8State sampleCert goodVerify c2Nets
      = { state := c8State, calls := [], outcome := none } :=
  C8_reentrancy_noop c8State sampleCert goodVerify c2Nets (Or.inl (by decide))

/-- C9: on every exit path of a started run (readiness check failed, all
signed, or partial failure), the run-in-progress flag is false and the
signing-progress indicator is cleared when the operation resolves. -/
theorem C9_flag_cleared (st : SignState) (cert : SscdCertificate)
    (vnet : Except HttpError (Option (List SscdCertificate))) (nets : Nat → InvoiceNet)
    (hT : st.termsAccepted = true) (hS : st.isSigning = false) (hNE : st.invoices ≠ []) :
    (signWithCert st cert vnet nets).state.isSigning = false ∧
    (signWithCert st cert vnet nets).state.signingProgress = none := by
  by_cases hV : verifyAgentAndCertificate vnet = true
  · rw [signWithCert_run st cert vnet nets hT hS hNE hV]
    exact ⟨rfl, rfl⟩
  · have hV2 : verifyAgentAndCertificate vnet = false := by
      simpa using hV
    rw [signWithCert_gated st cert vnet nets hT hS hNE hV2]
    exact ⟨rfl, rfl⟩

/-- Witness for C9 on a partial-failure run. -/
theorem C9_witness :
    (signWithCert c2State sampleCert goodVerify c2Nets).state.isSigning = false ∧
    (signWithCert c2State sampleCert goodVerify c2Nets).state.signingProgress = none :=
  C9_flag_cleared c2State sampleCert goodVerify c2Nets rfl rfl (by decide)

/-- C3: for a batch built from a non-empty ACCEPT session list, the full
call trace of the signing run is the concatenation, in ACCEPT order, of
one block per invoice, where each block starts with that invoice's PREPARE
call, contains its AGENT-SIGN call (with the digest of its PREPARE
response) only once PREPARE validated, and its COMPLETE call (with the
agent outputs and the ACCEPT-time token) only once AGENT-SIGN validated —
so invoice i+1's PREPARE never precedes the resolution of invoice i's
block, and within one invoice the three steps are strictly ordered. -/
theorem C3_sequential_order (st0 st : SignState) (cert : SscdCertificate)
    (vnet : Except HttpError (Option (List SscdCertificate))) (nets : Nat → InvoiceNet)
    (acceptResp : AcceptResponse) (renders : Nat → Option (List PdfPage))
    (sessions : List InvoiceSession)
    (hSess : acceptResp.signingSessions = some sessions)
    (hne : sessions ≠ [])
    (hInvs : st.invoices = (acceptAndLoadPdfs st0 (Except.ok (some acceptResp)) renders).1.invoices)
    (hT : st.termsAccepted = true) (hS : st.isSigning = false)
    (hV : verifyAgentAndCertificate vnet = true) :
    (signWithCert st cert vnet nets).calls =
      ((List.range sessions.length).map
        (fun j => blockSpec st.mainDocumentId cert (sessions.getD j dSess) (nets j))).join := by
  have hEmpty : sessions.isEmpty = false := by
    cases sessions with
    | nil => exact absurd rfl hne
    | cons a l => rfl
  have hInvs2 : st.invoices = loadAllPdfs renders 0 (sessions.map mkInvoiceView) := by
    rw [hInvs]
    simp [acceptAndLoadPdfs, hSess, hEmpty]
  have hlen : st.invoices.length = sessions.length := by
    rw [hInvs2, loadAllPdfs_length]
    simp
  have hNE : st.invoices ≠ [] := by
    intro hcontra
    rw [hcontra] at hlen
    cases sessions with
    | nil => exact hne rfl
    | cons a l => simp at hlen
  rw [signWithCert_run st cert vnet nets hT hS hNE hV]
  have hc := runFrom_calls st.mainDocumentId cert nets st.invoices 0
  rw [hc, hlen]
  dsimp only
  congr 1
  apply List.map_congr_left
  intro j hj
  have hj2 : j < sessions.length := List.mem_range.mp hj
  have hj3 : j < st.invoices.length := by rw [hlen]; exact hj2
  have hsess : (st.invoices.getD j dInv).session = sessions.getD j dSess := by
    rw [hInvs2]
    have h1 := loadAllPdfs_getD_session renders (sessions.map mkInvoiceView) 0 j
      (by simpa using hj2)
    rw [h1, map_mkInvoiceView_getD]
    rfl
  rw [hsess]
  simp

/-- Witness for C3: a two-invoice batch, second invoice failing at PREPARE. -/
theorem C3_witness :
    (signWithCert c3State sampleCert goodVerify c2Nets).calls =
      ((List.range ([sess1, sess2] : List InvoiceSession).length).map
        (fun j => blockSpec c3State.mainDocumentId sampleCert
          (([sess1, sess2] : List InvoiceSession).getD j dSess) (c2Nets j))).join :=
  C3_sequential_order (initialState ("DOC")) c3State sampleCert goodVerify c2Nets
    c3Accept (fun _ => some []) [sess1, sess2] rfl (by decide) rfl rfl rfl (by decide)

/-- C10: the signing loop attempts PREPARE for every invoice of the batch —
with no condition on the invoice's render state (error field or page
count) — and an invoice whose three calls succeed ends marked signed with
its error field left exactly as it was, so a render-failed invoice is
still signed. -/
theorem C10_attempts_every_invoice (st : SignState) (cert : SscdCertificate)
    (vnet : Except HttpError (Option (List SscdCertificate))) (nets : Nat → InvoiceNet)
    (hT : st.termsAccepted = true) (hS : st.isSigning = false)
    (hNE : st.invoices ≠ []) (hV : verifyAgentAndCertificate vnet = true)
    (j : Nat) (hj : j < st.invoices.length) :
    (NetCall.prepareCall (API_BASE ++ "/api/sign/" ++ st.mainDocumentId ++ "/prepare")
        cert.certAlias ((st.invoices.getD j dInv).session.signingSessionId) cert.serialNumber
      ∈ (signWithCert st cert vnet nets).calls) ∧
    (invoiceNetOk (nets j) = true →
      ((signWithCert st cert vnet nets).state.invoices.getD j dInv).signed = true ∧
      ((signWithCert st cert vnet nets).state.invoices.getD j dInv).error =
        (st.invoices.getD j dInv).error) := by
  rw [signWithCert_run st cert vnet nets hT hS hNE hV]
  constructor
  · have hc := runFrom_calls st.mainDocumentId cert nets st.invoices 0
    simp only [hc]
    rw [List.mem_join]
    refine ⟨blockSpec st.mainDocumentId cert ((st.invoices.getD j dInv).session) (nets (0 + j)), ?_, ?_⟩
    · exact List.mem_map_of_mem _ (List.mem_range.mpr hj)
    · unfold blockSpec
      exact List.mem_cons_self _ _
  · intro hok
    have hg := runFrom_getD st.mainDocumentId cert nets st.invoices 0 j hj
    simp only [Nat.zero_add] at hg
    simp only [hg]
    exact signOneInvoice_inv_ok st.mainDocumentId cert _ _ hok

/-- Witness for C10: a render-failed invoice (error set, zero pages) is
still attempted and ends signed with the render error retained. -/
theorem C10_witness :
    (NetCall.prepareCall (API_BASE ++ "/api/sign/DOC/prepare")
        "Alice" "TOK-1" "SN1"
      ∈ (signWithCert c10State sampleCert goodVerify (fun _ => okNet)).calls) ∧
    ((signWithCert c10State sampleCert goodVerify (fun _ => okNet)).state.invoices.getD 0 dInv).signed = true ∧
    ((signWithCert c10State sampleCert goodVerify (fun _ => okNet)).state.invoices.getD 0 dInv).error =
      some ("Impossible de charger la facture INV1.") := by
  have h := C10_attempts_every_invoice c10State sampleCert goodVerify (fun _ => okNet)
    rfl rfl (by decide) (by decide) 0 (by decide)
  have h2 := h.2 (by decide)
  exact ⟨h.1, h2.1, h2.2.trans (by decide)⟩

/-- C7: if the ACCEPT response carries zero invoice sessions (or no session
list at all), batch construction fails: the empty-batch error dialog is
surfaced, the invoice list stays empty, and any sign operation on the
resulting state is a no-op issuing no calls. -/
theorem C7_empty_accept_fails_batch (st0 : SignState) (resp : AcceptResponse)
    (renders : Nat → Option (List PdfPage))
    (hEmpty : resp.signingSessions = none ∨ resp.signingSessions = some [])
    (hInv0 : st0.invoices = []) :
    (acceptAndLoadPdfs st0 (Except.ok (some resp)) renders).1.invoices = [] ∧
    (acceptAndLoadPdfs st0 (Except.ok (some resp)) renders).2 =
      some ("Aucune facture à signer n\u0027a été trouvée.", "Aucune facture") ∧
    ∀ (st2 : SignState) (cert : SscdCertificate)
      (vnet : Except HttpError (Option (List SscdCertificate))) (nets : Nat → InvoiceNet),
      st2.invoices = (acceptAndLoadPdfs st0 (Except.ok (some resp)) renders).1.invoices →
      signWithCert st2 cert vnet nets = { state := st2, calls := [], outcome := none } := by
  have hs : (acceptAndLoadPdfs st0 (Except.ok (some resp)) renders).1.invoices = []
      ∧ (acceptAndLoadPdfs st0 (Except.ok (some resp)) renders).2 =
        some ("Aucune facture à signer n\u0027a été trouvée.", "Aucune facture") := by
    rcases hEmpty with h | h <;> simp [acceptAndLoadPdfs, h, hInv0]
  refine ⟨hs.1, hs.2, ?_⟩
  intro st2 cert vnet nets hinv
  exact signWithCert_guard_noop st2 cert vnet nets (Or.inr (hinv.trans hs.1))

/-- Witness for C7 with a zero-session ACCEPT response. -/
theorem C7_witness :
    (acceptAndLoadPdfs (initialState ("DOC")) (Except.ok (some c7Resp)) (fun _ => none)).1.invoices = [] ∧
    (acceptAndLoadPdfs (initialState ("DOC")) (Except.ok (some c7Resp)) (fun _ => none)).2 =
      some ("Aucune facture à signer n\u0027a été trouvée.", "Aucune facture") ∧
    signWithCert (acceptAndLoadPdfs (initialState ("DOC")) (Except.ok (some c7Resp)) (fun _ => none)).1
        sampleCert goodVerify c2Nets =
      { state := (acceptAndLoadPdfs (initialState ("DOC")) (Except.ok (some c7Resp)) (fun _ => none)).1,
        calls := [], outcome := none } := by
  have h := C7_empty_accept_fails_batch (initialState ("DOC")) c7Resp (fun _ => none)
    (Or.inr rfl) rfl
  exact ⟨h.1, h.2.1, h.2.2 _ sampleCert goodVerify c2Nets rfl⟩

theorem signWithCert_noterms (st : SignState) (cert : SscdCertificate)
    (vnet : Except HttpError (Option (List SscdCertificate))) (nets : Nat → InvoiceNet)
    (ht : st.termsAccepted = false) :
    signWithCert st cert vnet nets = { state := st, calls := [], outcome := none } := by
  simp [signWithCert, ht]

theorem signWithCert_invoices_cases (st : SignState) (cert : SscdCertificate)
    (vnet : Except HttpError (Option (List SscdCertificate))) (nets : Nat → InvoiceNet) :
    (signWithCert st cert vnet nets).state.invoices = st.invoices ∨
    (signWithCert st cert vnet nets).state.invoices =
      (runFrom st.mainDocumentId cert nets 0 st.invoices).1 := by
  by_cases ht : st.termsAccepted = true
  · by_cases hg : (st.isSigning || st.invoices.length == 0) = true
    · left; simp [signWithCert, ht, hg]
    · by_cases hv : verifyAgentAndCertificate vnet = true
      · right; simp [signWithCert, ht, hg, hv]
      · left
        have hv2 : verifyAgentAndCertificate vnet = false := by simpa using hv
        simp [signWithCert, ht, hg, hv2]
  · left
    have ht2 : st.termsAccepted = false := by simpa using ht
    rw [signWithCert_noterms st cert vnet nets ht2]

/-- C5 counterexample: an invoice whose PDF render failed (error recorded
by `loadInvoicePdf`) is then signed successfully by the loop; the reachable
final state has the invoice simultaneously signed and carrying a recorded
failure reason, refuting the claimed mutual exclusivity. -/
theorem C5_counterexample :
    ((signWithCert c5State sampleCert goodVerify (fun _ => okNet)).state.invoices.getD 0 dInv).signed
        = true ∧
    ((signWithCert c5State sampleCert goodVerify (fun _ => okNet)).state.invoices.getD 0 dInv).error
        = some ("Impossible de charger la facture INV1.") := by
  exact ⟨by decide, by decide⟩

/-- C5 (amended): mutual exclusivity holds for invoices that enter the run
unsigned and without a prior error (in particular those whose render
succeeded): no such invoice ends both marked signed and carrying an error.
An invoice whose render failed retains its render-failure message and may
additionally end signed, as the counterexample shows. -/
theorem C5_amended_mutual_exclusion (st : SignState) (cert : SscdCertificate)
    (vnet : Except HttpError (Option (List SscdCertificate))) (nets : Nat → InvoiceNet)
    (hclean : ∀ inv ∈ st.invoices, inv.error = none ∧ inv.signed = false) :
    ∀ x ∈ (signWithCert st cert vnet nets).state.invoices,
      ¬ (x.signed = true ∧ x.error ≠ none) := by
  intro x hx hcontra
  rcases signWithCert_invoices_cases st cert vnet nets with hcase | hcase
  · rw [hcase] at hx
    rcases hclean x hx with ⟨he, hsg⟩
    rw [hsg] at hcontra
    exact absurd hcontra.1 (by simp)
  · rw [hcase] at hx
    rcases runFrom_mem st.mainDocumentId cert nets st.invoices 0 x hx with ⟨j, inv, hm, he⟩
    rcases hclean inv hm with ⟨hie, hisg⟩
    by_cases hok : invoiceNetOk (nets j) = true
    · have h2 := signOneInvoice_inv_ok st.mainDocumentId cert inv (nets j) hok
      rw [he] at hcontra
      exact hcontra.2 (h2.2.trans hie)
    · have h2 := signOneInvoice_inv_fail st.mainDocumentId cert inv (nets j)
        (by simpa using hok)
      have hf : x.signed = false := by
        rw [he, h2.1]
        exact hisg
      rw [hcontra.1] at hf
      exact absurd hf (by simp)

/-- Witness for the amended C5 on a clean single-invoice run. -/
theorem C5_amended_witness :
    ¬ ((((signWithCert c5CleanState sampleCert goodVerify (fun _ => okNet)).state.invoices.getD 0 dInv)).signed = true ∧
       (((signWithCert c5CleanState sampleCert goodVerify (fun _ => okNet)).state.invoices.getD 0 dInv)).error ≠ none) := by
  have h := C5_amended_mutual_exclusion c5CleanState sampleCert goodVerify (fun _ => okNet)
    (by intro inv hm; simp [c5CleanState, initialState] at hm; subst hm; exact ⟨rfl, rfl⟩)
  exact h _ (by decide)

/-- C6 counterexample: with the digest absent from a well-formed PREPARE
response, `prepareSign` fails with the fixed digest-absent message, which
does not carry the invoice identifier INV42 (the message contains no
digit 4 at all), refuting the claim that the error carries the invoice's
identifier in this case. -/
theorem C6_counterexample :
    (prepareSign ("DOC") c6Sess sampleCert c6NoDigest).2 =
      Except.error ("Digest absent de la réponse de préparation.") ∧
    containsStr ("Digest absent de la réponse de préparation.") "INV42" = false ∧
    ('4' ∈ "INV42".data) ∧
    ('4' ∉ "Digest absent de la réponse de préparation.".data) :=
  ⟨by decide, by decide, by decide, by decide⟩

/-- C6 (amended): `prepareSign` fails whenever the digest is absent from
the response or the call itself fails; the error message prefers any
server-supplied message over the generic one; the invoice identifier is
carried only by the generic fallback message (call failed with no
server-supplied message), while the digest-absent case produces a fixed
message; and only the failing invoice is affected — an invoice whose own
calls succeed keeps its error field unchanged whatever happens to the
others. -/
theorem C6_amended_prepare_errors (d : String) (s : InvoiceSession)
    (cert : SscdCertificate) (net : Except HttpError (Option PrepareSignResponse)) :
    (∀ r : Option PrepareSignResponse, net = Except.ok r → strTruthy (digestOf r) = false →
      (prepareSign d s cert net).2 =
        Except.error ("Digest absent de la réponse de préparation.")) ∧
    (∀ e m, net = Except.error e → extractServerMessage (Thrown.httpErr e) = some m →
      (prepareSign d s cert net).2 = Except.error m) ∧
    (∀ e, net = Except.error e → extractServerMessage (Thrown.httpErr e) = none →
      (prepareSign d s cert net).2 =
        Except.error ("Échec de la préparation pour la facture " ++ s.invoiceId ++ ".")) ∧
    (∀ (invs : List InvoiceView) (nets : Nat → InvoiceNet) (k : Nat), k < invs.length →
      invoiceNetOk (nets k) = true →
      ((runFrom d cert nets 0 invs).1.getD k dInv).error = (invs.getD k dInv).error) := by
  refine ⟨?_, ?_, ?_, ?_⟩
  · intro r hr hd
    subst hr
    cases r with
    | none => simp [prepareSign]
    | some r2 =>
        simp only [digestOf] at hd
        simp [prepareSign, hd]
  · intro e m he hm
    subst he
    simp [prepareSign, hm]
  · intro e he hm
    subst he
    simp [prepareSign, hm]
  · intro invs nets k hk hok
    have hg := runFrom_getD d cert nets invs 0 k hk
    simp only [Nat.zero_add] at hg
    rw [hg]
    exact (signOneInvoice_inv_ok d cert _ _ hok).2

/-- Witness for the amended C6: server-supplied message preferred, and the
digest-absent case produces the fixed message. -/
theorem C6_amended_witness :
    (prepareSign ("DOC") c6Sess sampleCert (Except.error c6ServerErr)).2 =
      Except.error ("SRV") ∧
    (prepareSign ("DOC") c6Sess sampleCert c6NoDigest).2 =
      Except.error ("Digest absent de la réponse de préparation.") := by
  have h1 := C6_amended_prepare_errors ("DOC") c6Sess sampleCert (Except.error c6ServerErr)
  have h2 := C6_amended_prepare_errors ("DOC") c6Sess sampleCert c6NoDigest
  exact ⟨h1.2.1 c6ServerErr ("SRV") rfl (by decide), h2.1 _ rfl (by decide)⟩
